import Mathlib

/-!
Shallow embedding of `src/main.py`, a minimal interactive username/password
login system backed by a MySQL `users` table and bcrypt password hashing.

Modelling decisions, in order of appearance in the source:

* Python's `str.strip()` (used on every entered username/password) is embedded
  as `strip`, which removes leading and trailing whitespace characters.
* The bcrypt library (`bcrypt.hashpw`/`bcrypt.gensalt`/`bcrypt.checkpw`) and
  the passlib fallback (`passlib.hash.bcrypt.hash`/`verify`) are external
  dependencies, modelled abstractly but faithfully to their observable
  contract: a digest is a self-describing string `"$" ++ salt ++ "$" ++ body`
  from which verification re-extracts the salt, recomputes the hash of the
  candidate under that salt and compares; a fresh random salt per call is
  modelled by an explicit `salt : Nat` argument (the caller of the model
  supplies the entropy that `bcrypt.gensalt()` would draw); the hash body for
  plaintext `raw` under a fixed cost is modelled as `raw` itself (one-wayness
  is a cryptographic property outside the scope of a functional model, and no
  claim relies on it); the salt field is rendered as a run of `'s'`
  characters standing in for bcrypt's fixed base64 salt field.  Crucially,
  both `bcrypt.checkpw` and `passlib`'s `verify` RAISE (here: `Except.error`)
  on a digest whose structure does not parse — the pyca/bcrypt `checkpw`
  raises `ValueError: Invalid salt` on an empty or truncated digest — and
  return a boolean otherwise.
* `use_passlib`, the module-level flag chosen at import time by the
  try/except import dance, is an explicit `Bool` parameter.
* The MySQL `users` table (`username VARCHAR PRIMARY KEY, password_hash
  VARCHAR NOT NULL`) is a `Store`: a list of `(username, password_hash)`
  rows.  `INSERT` raises `IntegrityError` (here: `Except.error`) exactly when
  the primary key is already present; `SELECT ... WHERE username = x` is
  `findRow`.  Each operation also reports the list of SQL queries it issued,
  so that "no store access occurs" claims are statable.  The bytes/str
  conversions (`hashed.decode()`, `result[0].encode()`) are identities in the
  model: digests are strings throughout.
* `connect()` is modelled as a function of the outcome of the underlying
  `mysql.connector.connect` call (success, or failure with a MySQL errno):
  the embedding covers the classification and exit behaviour that the source
  adds on top of the library call.
* `input()`/`getpass()` values are explicit string arguments; `print`ed
  outcome messages are represented by result constructors (one per distinct
  message), except for `connect` where the claim is about the message strings
  themselves, which are therefore carried verbatim.
-/

namespace LoginSystem

/-- Model of Python `str.strip()`: remove leading and trailing whitespace.
(Python strips the Unicode whitespace class; `Char.isWhitespace` covers the
ASCII part — space, tab, newline, carriage return — which is what the claims
exercise.) -/
def stripData (l : List Char) : List Char :=
  ((l.dropWhile Char.isWhitespace).reverse.dropWhile Char.isWhitespace).reverse

def strip (s : String) : String :=
  ⟨stripData s.data⟩

/-- Model of the bcrypt digest format: a self-describing string holding the
salt and the hash body.  Stands in for `$2b$12$<salt><hash>`. -/
def encodeDigest (salt : Nat) (body : List Char) : List Char :=
  '$' :: (List.replicate salt 's' ++ '$' :: body)

/-- Salt parser: consume the run of salt characters after the leading `'$'`,
up to the `'$'` separator; any other shape is a parse failure. -/
def decodeAux : List Char → Nat → Option (Nat × List Char)
  | [], _ => none
  | c :: cs, n =>
    if c = '$' then some (n, cs)
    else if c = 's' then decodeAux cs (n + 1)
    else none

/-- Parse a digest string back into its salt and hash body; `none` on an
empty, truncated or otherwise structurally invalid digest. -/
def decodeDigest : List Char → Option (Nat × List Char)
  | '$' :: rest => decodeAux rest 0
  | _ => none

/-- Model of `bcrypt.hashpw(raw.encode(), bcrypt.gensalt())`: hash `raw`
under the (explicitly passed) fresh salt, producing a self-describing
digest. -/
def bcryptHashpw (raw : String) (salt : Nat) : String :=
  ⟨encodeDigest salt raw.data⟩

/-- Model of `bcrypt.checkpw(raw.encode(), stored)`: extract the salt from
the stored digest — RAISING (`Except.error`) on a digest that does not parse,
as pyca/bcrypt raises `ValueError: Invalid salt` — then recompute the hash of
`raw` under that salt and compare with the stored digest. -/
def bcryptCheckpw (raw : String) (stored : String) : Except Unit Bool :=
  match decodeDigest stored.data with
  | none => .error ()
  | some (salt, _) => .ok (bcryptHashpw raw salt == stored)

/-- Model of `passlib.hash.bcrypt.hash(raw)`: same digest format as the
bcrypt library (the source stores and verifies the two interchangeably). -/
def passlibHash (raw : String) (salt : Nat) : String :=
  bcryptHashpw raw salt

/-- Model of `passlib_bcrypt.verify(raw, stored)`: parses the digest and
raises on a malformed one, otherwise returns the boolean comparison. -/
def passlibVerify (raw : String) (stored : String) : Except Unit Bool :=
  bcryptCheckpw raw stored

/-- `hash_password` from `src/main.py` (lines 64-69): passlib branch encodes
to bytes for storage consistency, bcrypt branch hashes under a fresh salt;
both produce the same digest format (bytes/str conversions are identities in
the model).  `usePasslib` is the module-level `use_passlib` flag; `salt` is
the entropy `bcrypt.gensalt()` / passlib would draw. -/
def hash_password (usePasslib : Bool) (raw : String) (salt : Nat) : String :=
  if usePasslib then passlibHash raw salt
  else bcryptHashpw raw salt

/-- `verify_password` from `src/main.py` (lines 71-78): the passlib branch
wraps the library call in try/except and returns `False` on any exception;
the bcrypt branch calls `bcrypt.checkpw` bare, so a library exception
propagates to the caller (`Except.error`). -/
def verify_password (usePasslib : Bool) (raw : String) (stored_hash : String) :
    Except Unit Bool :=
  if usePasslib then
    match passlibVerify raw stored_hash with
    | .ok b => .ok b
    | .error _ => .ok false
  else
    bcryptCheckpw raw stored_hash

/-- The `users` table: rows of `(username, password_hash)`, with `username`
the primary key. -/
structure Store where
  rows : List (String × String)
deriving DecidableEq, Repr

/-- `SELECT password_hash FROM users WHERE username = %s` followed by
`fetchone()`: the stored hash of `u`, or `none`. -/
def findRow (st : Store) (u : String) : Option String :=
  (st.rows.find? (fun r => r.1 == u)).map (fun r => r.2)

/-- `INSERT INTO users (username, password_hash) VALUES (%s, %s)` plus
`conn.commit()`: the primary key on `username` makes the insert raise
`IntegrityError` (`Except.error`) when the username is already present;
otherwise the row is committed. -/
def insertUser (st : Store) (u h : String) : Except Unit Store :=
  if (findRow st u).isSome then .error ()
  else .ok ⟨st.rows ++ [(u, h)]⟩

/-- The SQL statements an operation sends to the store. -/
inductive Query
  | insert (username : String) (hash : String)
  | select (username : String)
  | createTable
deriving DecidableEq, Repr

/-- `setup_table` from `src/main.py` (lines 56-62): `CREATE TABLE IF NOT
EXISTS` — issues the DDL query and leaves existing rows untouched. -/
def setup_table (st : Store) : Store × List Query :=
  (st, [Query.createTable])

/-- Outcome of `register` — one constructor per distinct printed message. -/
inductive RegisterResult
  | emptyUsername   -- "❌ Username cannot be empty."
  | emptyPassword   -- "❌ Password cannot be empty."
  | success         -- "✅ Registration successful."
  | usernameTaken   -- "❌ Username already exists."
deriving DecidableEq, Repr

/-- `register` from `src/main.py` (lines 80-95).  `usernameInput` and
`passwordInput` are what `input()` / `getpass()` return; both are stripped;
empty stripped username, then empty stripped password, are rejected before
any query; otherwise the password is hashed and the insert attempted, with
`IntegrityError` reported as username-taken (store unchanged).  Returns the
outcome, the resulting store, and the queries issued. -/
def register (usernameInput passwordInput : String) (salt : Nat)
    (usePasslib : Bool) (st : Store) : RegisterResult × Store × List Query :=
  let username := strip usernameInput
  if username = "" then (RegisterResult.emptyUsername, st, [])
  else
    let password := strip passwordInput
    if password = "" then (RegisterResult.emptyPassword, st, [])
    else
      let hashed := hash_password usePasslib password salt
      match insertUser st username hashed with
      | .ok st' => (RegisterResult.success, st', [Query.insert username hashed])
      | .error _ => (RegisterResult.usernameTaken, st, [Query.insert username hashed])

/-- Outcome of `login` — one constructor per distinct printed message, plus
`raised` for an exception escaping `verify_password` (no handler in the
source). -/
inductive LoginResult
  | emptyUsername       -- "❌ Username cannot be empty."
  | userNotFound        -- "❌ User not found."
  | success             -- "✅ Login successful! ..."
  | invalidCredentials  -- "❌ Invalid credentials."
  | raised              -- uncaught exception from verify_password
deriving DecidableEq, Repr

/-- `login` from `src/main.py` (lines 97-112).  Strips both inputs; rejects
an empty stripped username before any query; the password is stripped but —
unlike in `register` — NOT checked for emptiness; then the hash is looked up
(`SELECT`), absence reported as not-found, and otherwise `verify_password`
decides between success and invalid-credentials. -/
def login (usernameInput passwordInput : String) (usePasslib : Bool)
    (st : Store) : LoginResult × List Query :=
  let username := strip usernameInput
  if username = "" then (LoginResult.emptyUsername, [])
  else
    let password := strip passwordInput
    match findRow st username with
    | none => (LoginResult.userNotFound, [Query.select username])
    | some stored_hash =>
      match verify_password usePasslib password stored_hash with
      | .ok true => (LoginResult.success, [Query.select username])
      | .ok false => (LoginResult.invalidCredentials, [Query.select username])
      | .error _ => (LoginResult.raised, [Query.select username])

/-- `mysql.connector.errorcode.ER_BAD_DB_ERROR`. -/
def ER_BAD_DB_ERROR : Nat := 1049

/-- `mysql.connector.errorcode.ER_ACCESS_DENIED_ERROR`. -/
def ER_ACCESS_DENIED_ERROR : Nat := 1045

/-- Outcome of the underlying `mysql.connector.connect` call: a live
connection, or a `mysql.connector.Error` carrying an errno. -/
inductive ConnAttempt
  | success
  | failure (errno : Nat)
deriving DecidableEq, Repr

/-- What `connect` does: return the live connection, or print a diagnostic
and terminate the process with the given exit code. -/
inductive ConnectOutcome
  | connected
  | exited (message : String) (exitCode : Nat)
deriving DecidableEq, Repr

/-- Diagnostic for `ER_BAD_DB_ERROR` (source line 49). -/
def badDbMessage (dbName : String) : String :=
  "Database '" ++ (dbName ++ ("' does not exist. Please create it and rerun. (e.g. CREATE DATABASE " ++ (dbName ++ ";)")))

/-- Diagnostic for `ER_ACCESS_DENIED_ERROR` (source line 51). -/
def accessDeniedMessage : String :=
  "Access denied: check your username/password."

/-- Diagnostic for any other connection error (source line 53); the f-string
interpolates `str(err)`, represented by the errno. -/
def otherErrorMessage (errno : Nat) : String :=
  "Database connection error: " ++ toString errno

/-- `connect` from `src/main.py` (lines 37-54): returns the connection on
success; on `mysql.connector.Error` classifies the errno into bad-database /
access-denied / other, prints the class's diagnostic and exits with code 1
(`exit(1)`); never retries, never returns a connection on failure. -/
def connect (dbName : String) (attempt : ConnAttempt) : ConnectOutcome :=
  match attempt with
  | ConnAttempt.success => ConnectOutcome.connected
  | ConnAttempt.failure errno =>
    if errno = ER_BAD_DB_ERROR then ConnectOutcome.exited (badDbMessage dbName) 1
    else if errno = ER_ACCESS_DENIED_ERROR then ConnectOutcome.exited accessDeniedMessage 1
    else ConnectOutcome.exited (otherErrorMessage errno) 1

/-- The table invariant of claim C9: usernames pairwise distinct (primary
key), and every stored `password_hash` non-empty and in the range of
`hash_password`. -/
def Store.wf (st : Store) : Prop :=
  st.rows.Pairwise (fun a b => a.1 ≠ b.1) ∧
    ∀ r ∈ st.rows, r.2 ≠ "" ∧ ∃ b p s, r.2 = hash_password b p s

/-! ### Digest lemmas -/

theorem decodeAux_replicate (body : List Char) (k : Nat) :
    ∀ n, decodeAux (List.replicate k 's' ++ '$' :: body) n = some (n + k, body) := by
  induction k with
  | zero => intro n; simp [decodeAux]
  | succ k ih =>
    intro n
    simp [List.replicate_succ, decodeAux, ih (n + 1)]
    omega

theorem decodeDigest_encodeDigest (salt : Nat) (body : List Char) :
    decodeDigest (encodeDigest salt body) = some (salt, body) := by
  simp [encodeDigest, decodeDigest, decodeAux_replicate]

theorem encodeDigest_inj {s1 s2 : Nat} {b1 b2 : List Char}
    (h : encodeDigest s1 b1 = encodeDigest s2 b2) : s1 = s2 ∧ b1 = b2 := by
  have h1 := decodeDigest_encodeDigest s1 b1
  rw [h, decodeDigest_encodeDigest] at h1
  simp only [Option.some.injEq, Prod.mk.injEq] at h1
  exact ⟨h1.1.symm, h1.2.symm⟩

theorem bcryptHashpw_inj {r1 r2 : String} {s1 s2 : Nat}
    (h : bcryptHashpw r1 s1 = bcryptHashpw r2 s2) : s1 = s2 ∧ r1 = r2 := by
  have h' : encodeDigest s1 r1.data = encodeDigest s2 r2.data := by
    simpa [bcryptHashpw, String.ext_iff] using h
  obtain ⟨hs, hb⟩ := encodeDigest_inj h'
  exact ⟨hs, String.ext_iff.mpr hb⟩

theorem bcryptHashpw_ne_empty (raw : String) (salt : Nat) :
    bcryptHashpw raw salt ≠ "" := by
  simp [bcryptHashpw, String.ext_iff, encodeDigest]

theorem hash_password_eq_bcryptHashpw (b : Bool) (p : String) (s : Nat) :
    hash_password b p s = bcryptHashpw p s := by
  cases b <;> rfl

theorem bcryptCheckpw_bcryptHashpw (raw p : String) (salt : Nat) :
    bcryptCheckpw raw (bcryptHashpw p salt) = Except.ok (raw == p) := by
  have hd : (bcryptHashpw p salt).data = encodeDigest salt p.data := rfl
  have hbeq : (bcryptHashpw raw salt == bcryptHashpw p salt) = (raw == p) := by
    by_cases h : raw = p
    · subst h; simp
    · have hne : bcryptHashpw raw salt ≠ bcryptHashpw p salt :=
        fun hc => h (bcryptHashpw_inj hc).2
      simp [h, hne]
  simp [bcryptCheckpw, hd, decodeDigest_encodeDigest, hbeq]

theorem verify_password_hash_password (b b' : Bool) (raw p : String) (salt : Nat) :
    verify_password b raw (hash_password b' p salt) = Except.ok (raw == p) := by
  cases b <;> cases b' <;>
    simp [verify_password, hash_password, passlibVerify, passlibHash,
      bcryptCheckpw_bcryptHashpw]

/-! ### Strip lemmas -/

theorem dropWhile_of_leftClean {P A : List Char}
    (hA : List.dropWhile Char.isWhitespace A = A) (hPA : P <+: A) :
    List.dropWhile Char.isWhitespace P = P := by
  cases P with
  | nil => rfl
  | cons c cs =>
    obtain ⟨t, ht⟩ := hPA
    have hc : Char.isWhitespace c = false := by
      by_contra hcc
      have hc' : Char.isWhitespace c = true := by
        cases hcm : Char.isWhitespace c with
        | false => exact absurd hcm hcc
        | true => rfl
      rw [← ht, List.cons_append, List.dropWhile_cons, if_pos hc'] at hA
      have hlen : (List.dropWhile Char.isWhitespace (cs ++ t)).length ≤ (cs ++ t).length :=
        (List.dropWhile_suffix _).length_le
      rw [hA] at hlen
      simp at hlen
    simp [List.dropWhile_cons, hc]

theorem stripData_leftClean (l : List Char) :
    List.dropWhile Char.isWhitespace (stripData l) = stripData l := by
  apply dropWhile_of_leftClean (List.dropWhile_idempotent _ _)
  have hsuf := List.dropWhile_suffix
    (l := (List.dropWhile Char.isWhitespace l).reverse) Char.isWhitespace
  have hpre := List.reverse_prefix.mpr hsuf
  rwa [List.reverse_reverse] at hpre

theorem stripData_idem (l : List Char) : stripData (stripData l) = stripData l := by
  have hP := stripData_leftClean l
  simp only [stripData] at hP ⊢
  rw [hP, List.reverse_reverse, List.dropWhile_idempotent]

theorem strip_idem (s : String) : strip (strip s) = strip s := by
  show (⟨stripData (stripData s.data)⟩ : String) = ⟨stripData s.data⟩
  rw [stripData_idem]

/-! ### Store lemmas -/

theorem find?_rows_eq_none {st : Store} {u : String}
    (hfree : findRow st u = none) :
    st.rows.find? (fun r => r.1 == u) = none := by
  unfold findRow at hfree
  cases hfind : st.rows.find? (fun r => r.1 == u) with
  | none => rfl
  | some r => rw [hfind] at hfree; simp at hfree

theorem findRow_append_self (st : Store) (u h' : String)
    (hfree : findRow st u = none) :
    findRow ⟨st.rows ++ [(u, h')]⟩ u = some h' := by
  unfold findRow
  rw [List.find?_append, find?_rows_eq_none hfree]
  simp [List.find?]

theorem register_success_eq (u p : String) (salt : Nat) (b : Bool) (st : Store)
    (hu : strip u ≠ "") (hp : strip p ≠ "") (hfree : findRow st (strip u) = none) :
    register u p salt b st =
      (RegisterResult.success,
       ⟨st.rows ++ [(strip u, hash_password b (strip p) salt)]⟩,
       [Query.insert (strip u) (hash_password b (strip p) salt)]) := by
  simp [register, hu, hp, insertUser, hfree]

theorem register_attempts_insert (u p : String) (salt : Nat) (b : Bool) (st : Store)
    (hu : strip u ≠ "") (hp : strip p ≠ "") :
    (register u p salt b st).2.2 =
      [Query.insert (strip u) (hash_password b (strip p) salt)] ∧
    ((register u p salt b st).1 = RegisterResult.success ∨
     (register u p salt b st).1 = RegisterResult.usernameTaken) := by
  cases hins : insertUser st (strip u) (hash_password b (strip p) salt) with
  | ok st' => simp [register, hu, hp, hins]
  | error e => simp [register, hu, hp, hins]

theorem login_issues_select (u p : String) (b : Bool) (st : Store)
    (hu : strip u ≠ "") :
    (login u p b st).2 = [Query.select (strip u)] ∧
    (login u p b st).1 ≠ LoginResult.emptyUsername := by
  cases hfind : findRow st (strip u) with
  | none => simp [login, hu, hfind]
  | some hsh =>
    cases hv : verify_password b (strip p) hsh with
    | error e => simp [login, hu, hfind, hv]
    | ok bb => cases bb <;> simp [login, hu, hfind, hv]

/-! ### Claim theorems -/

/-- C1: for a username (stripped) not yet in the store and a non-empty
(stripped) username and password, `register(u,p)` succeeds and a subsequent
`login(u,p)` on the resulting store succeeds: the digest `hash_password`
produces is accepted by `verify_password` for the same plaintext. -/
theorem C1_register_then_login (u p : String) (salt : Nat) (b : Bool) (st : Store)
    (hu : strip u ≠ "") (hp : strip p ≠ "") (hfree : findRow st (strip u) = none) :
    (register u p salt b st).1 = RegisterResult.success ∧
    (login u p b (register u p salt b st).2.1).1 = LoginResult.success := by
  rw [register_success_eq u p salt b st hu hp hfree]
  refine ⟨rfl, ?_⟩
  simp [login, hu, findRow_append_self st (strip u) _ hfree,
    verify_password_hash_password]

/-- Witness for C1 at `u = "alice"`, `p = "s3cret"`, salt 0, bcrypt backend,
empty store. -/
theorem C1_witness :
    (register "alice" "s3cret" 0 false ⟨[]⟩).1 = RegisterResult.success ∧
    (login "alice" "s3cret" false
      (register "alice" "s3cret" 0 false ⟨[]⟩).2.1).1 = LoginResult.success :=
  C1_register_then_login "alice" "s3cret" 0 false ⟨[]⟩
    (by decide) (by decide) (by decide)

/-- C2: the claim says `verify_password(raw, digest)` returns false and never
raises for a structurally invalid digest.  On the bcrypt backend
(`use_passlib = False`, the default whenever the bcrypt library is
installed), the source calls `bcrypt.checkpw` with no exception handler, and
that call raises `ValueError: Invalid salt` on an empty or truncated digest,
so the exception escapes to the caller.  This theorem evaluates the
embedding at the failing input `raw = "x"`, `stored_hash = ""`: the result
is the error outcome, not `false`.  (The passlib branch does catch the
exception, which is exactly the behaviour the claim describes.) -/
theorem C2_bcrypt_branch_raises :
    verify_password false "x" "" = Except.error () := rfl

/-- C3 counterexample: the claim says login rejects an empty (stripped)
password before issuing any query, but the source's `login` never validates
the password: with username `"alice"` and password `""` it issues the
`SELECT` and reports not-found on the empty store. -/
theorem C3_counterexample :
    login "alice" "" false ⟨[]⟩ =
      (LoginResult.userNotFound, [Query.select "alice"]) := rfl

/-- C3 as amended: `register` rejects an empty stripped username, then an
empty stripped password, before issuing any query; `login` rejects an empty
stripped username before issuing any query, but does not validate the
password — it queries the store whenever the username is non-empty,
regardless of the password. -/
theorem C3_amended_validation (u p : String) (salt : Nat) (b : Bool) (st : Store) :
    ((register u p salt b st).1 = RegisterResult.emptyUsername ↔ strip u = "") ∧
    ((register u p salt b st).1 = RegisterResult.emptyPassword ↔
      strip u ≠ "" ∧ strip p = "") ∧
    ((register u p salt b st).2.2 = [] ↔ strip u = "" ∨ strip p = "") ∧
    ((login u p b st).1 = LoginResult.emptyUsername ↔ strip u = "") ∧
    ((login u p b st).2 = [] ↔ strip u = "") := by
  by_cases hu : strip u = ""
  · simp [register, login, hu]
  · obtain ⟨hlq, hlr⟩ := login_issues_select u p b st hu
    by_cases hp : strip p = ""
    · simp [register, hu, hp, hlq, hlr]
    · obtain ⟨hrq, hrr⟩ := register_attempts_insert u p salt b st hu hp
      refine ⟨?_, ?_, ?_, ?_, ?_⟩
      · rcases hrr with h | h <;> simp [h, hu]
      · rcases hrr with h | h <;> simp [h, hu, hp]
      · simp [hrq, hu, hp]
      · simp [hlr, hu]
      · simp [hlq, hu]

/-- C4: registering a username (stripped, non-empty) that is already present
in the store, with any non-empty password, reports the username-taken
outcome and leaves the store exactly unchanged — the `IntegrityError` from
the primary-key violation is caught, nothing is committed. -/
theorem C4_duplicate_register (u p : String) (salt : Nat) (b : Bool) (st : Store)
    (hu : strip u ≠ "") (hp : strip p ≠ "")
    (htaken : (findRow st (strip u)).isSome = true) :
    (register u p salt b st).1 = RegisterResult.usernameTaken ∧
    (register u p salt b st).2.1 = st := by
  simp [register, hu, hp, insertUser, htaken]

/-- Witness for C4: registering `"alice"` again on a store that already has
an `"alice"` row. -/
theorem C4_witness :
    (register "alice" "other" 0 false ⟨[("alice", "$$x")]⟩).1 =
      RegisterResult.usernameTaken ∧
    (register "alice" "other" 0 false ⟨[("alice", "$$x")]⟩).2.1 =
      ⟨[("alice", "$$x")]⟩ :=
  C4_duplicate_register "alice" "other" 0 false ⟨[("alice", "$$x")]⟩
    (by decide) (by decide) (by decide)

/-- C5: logging in with a (stripped, non-empty) username absent from the
store and a non-empty password yields the user-not-found outcome — a normal
result constructor, distinct from the raised-exception outcome, and the
lookup is the only query issued. -/
theorem C5_login_unknown_user (u p : String) (b : Bool) (st : Store)
    (hu : strip u ≠ "") (_hp : strip p ≠ "") (hfree : findRow st (strip u) = none) :
    login u p b st = (LoginResult.userNotFound, [Query.select (strip u)]) ∧
    LoginResult.userNotFound ≠ LoginResult.raised := by
  exact ⟨by simp [login, hu, hfree], by simp⟩

/-- Witness for C5: `login "bob" "x"` on the empty store. -/
theorem C5_witness :
    login "bob" "x" false ⟨[]⟩ =
      (LoginResult.userNotFound, [Query.select "bob"]) ∧
    LoginResult.userNotFound ≠ LoginResult.raised :=
  C5_login_unknown_user "bob" "x" false ⟨[]⟩ (by decide) (by decide) (by decide)

/-- C6 counterexample: the claim quantifies over all `p1 ≠ p2`, but both
operations strip surrounding whitespace, so `p1 = "p "` and `p2 = "p"` are
distinct strings denoting the same credential: `register("u", "p ")`
followed by `login("u", "p")` yields `success`, not `invalidCredentials`. -/
theorem C6_counterexample :
    ("p " : String) ≠ "p" ∧
    (register "u" "p " 0 false ⟨[]⟩).1 = RegisterResult.success ∧
    (login "u" "p" false (register "u" "p " 0 false ⟨[]⟩).2.1).1 =
      LoginResult.success :=
  ⟨by decide, by decide, by decide⟩

/-- C6 as amended: for passwords that differ AFTER stripping (and a fresh
non-empty username), `register(u,p1)` then `login(u,p2)` fails with the
invalid-credentials outcome — `verify_password` of `p2` against the stored
hash of `p1` returns false — and that outcome is distinct from
user-not-found. -/
theorem C6_wrong_password (u p1 p2 : String) (salt : Nat) (b : Bool) (st : Store)
    (hu : strip u ≠ "") (hp1 : strip p1 ≠ "") (hne : strip p2 ≠ strip p1)
    (hfree : findRow st (strip u) = none) :
    (login u p2 b (register u p1 salt b st).2.1).1 =
      LoginResult.invalidCredentials ∧
    LoginResult.invalidCredentials ≠ LoginResult.userNotFound := by
  refine ⟨?_, by simp⟩
  rw [register_success_eq u p1 salt b st hu hp1 hfree]
  have hb : (strip p2 == strip p1) = false := by simp [hne]
  simp [login, hu, findRow_append_self st (strip u) _ hfree,
    verify_password_hash_password, hb]

/-- Witness for C6 (amended) at `u = "alice"`, `p1 = "s3cret"`,
`p2 = "wrong"`. -/
theorem C6_witness :
    (login "alice" "wrong" false
      (register "alice" "s3cret" 7 false ⟨[]⟩).2.1).1 =
      LoginResult.invalidCredentials ∧
    LoginResult.invalidCredentials ≠ LoginResult.userNotFound :=
  C6_wrong_password "alice" "s3cret" "wrong" 7 false ⟨[]⟩
    (by decide) (by decide) (by decide) (by decide)

/-- C7: hashing the same password under two distinct fresh salts (the salt
argument models the entropy `bcrypt.gensalt()` draws per call) produces two
different digest strings, and `verify_password` accepts the password against
each of the two digests. -/
theorem C7_fresh_salts (b : Bool) (p : String) (s1 s2 : Nat) (hne : s1 ≠ s2) :
    hash_password b p s1 ≠ hash_password b p s2 ∧
    verify_password b p (hash_password b p s1) = Except.ok true ∧
    verify_password b p (hash_password b p s2) = Except.ok true := by
  refine ⟨?_, ?_, ?_⟩
  · intro h
    rw [hash_password_eq_bcryptHashpw, hash_password_eq_bcryptHashpw] at h
    exact hne (bcryptHashpw_inj h).1
  · rw [verify_password_hash_password]; simp
  · rw [verify_password_hash_password]; simp

/-- Witness for C7 at `p = "pw"`, salts 0 and 1, bcrypt backend. -/
theorem C7_witness :
    hash_password false "pw" 0 ≠ hash_password false "pw" 1 ∧
    verify_password false "pw" (hash_password false "pw" 0) = Except.ok true ∧
    verify_password false "pw" (hash_password false "pw" 1) = Except.ok true :=
  C7_fresh_salts false "pw" 0 1 (by decide)

/-! ### Connection-message distinctness -/

theorem badDbMessage_take (d : String) :
    (badDbMessage d).data.take 10 = "Database '".data := by
  have h : (badDbMessage d).data =
      "Database '".data ++
        (d.data ++
          ("' does not exist. Please create it and rerun. (e.g. CREATE DATABASE ".data ++
            (d.data ++ ";)".data))) := by
    simp [badDbMessage, String.data_append]
  rw [h]
  have h10 : ("Database '".data).length = 10 := rfl
  rw [← h10, List.take_left]

theorem otherErrorMessage_take (e : Nat) :
    (otherErrorMessage e).data.take 10 = "Database c".data := by
  have h0 : "Database connection error: ".data =
      "Database c".data ++ "onnection error: ".data := by decide
  have h : (otherErrorMessage e).data =
      "Database c".data ++ ("onnection error: ".data ++ (toString e).data) := by
    simp [otherErrorMessage, String.data_append, h0]
  rw [h]
  have h10 : ("Database c".data).length = 10 := rfl
  rw [← h10, List.take_left]

theorem badDbMessage_ne_accessDeniedMessage (d : String) :
    badDbMessage d ≠ accessDeniedMessage := by
  intro h
  have h' : (badDbMessage d).data.take 10 = accessDeniedMessage.data.take 10 := by
    rw [h]
  rw [badDbMessage_take] at h'
  exact absurd h' (by decide)

theorem badDbMessage_ne_otherErrorMessage (d : String) (e : Nat) :
    badDbMessage d ≠ otherErrorMessage e := by
  intro h
  have h' : (badDbMessage d).data.take 10 = (otherErrorMessage e).data.take 10 := by
    rw [h]
  rw [badDbMessage_take, otherErrorMessage_take] at h'
  exact absurd h' (by decide)

theorem accessDeniedMessage_ne_otherErrorMessage (e : Nat) :
    accessDeniedMessage ≠ otherErrorMessage e := by
  intro h
  have h' : accessDeniedMessage.data.take 10 = (otherErrorMessage e).data.take 10 := by
    rw [h]
  rw [otherErrorMessage_take] at h'
  exact absurd h' (by decide)

/-- C8: `connect` returns the live connection on success; every connection
failure is classified by errno into exactly one of bad-database
(`ER_BAD_DB_ERROR`), access-denied (`ER_ACCESS_DENIED_ERROR`) or other, and
mapped to that class's diagnostic message and process exit with the non-zero
code 1 — never a retry, never a connection value; the three diagnostics are
pairwise distinct strings. -/
theorem C8_connect_classification (d : String) (e : Nat) :
    connect d ConnAttempt.success = ConnectOutcome.connected ∧
    connect d (ConnAttempt.failure e) =
      ConnectOutcome.exited
        (if e = ER_BAD_DB_ERROR then badDbMessage d
         else if e = ER_ACCESS_DENIED_ERROR then accessDeniedMessage
         else otherErrorMessage e) 1 ∧
    badDbMessage d ≠ accessDeniedMessage ∧
    badDbMessage d ≠ otherErrorMessage e ∧
    accessDeniedMessage ≠ otherErrorMessage e := by
  refine ⟨rfl, ?_, badDbMessage_ne_accessDeniedMessage d,
    badDbMessage_ne_otherErrorMessage d e, accessDeniedMessage_ne_otherErrorMessage e⟩
  by_cases h1 : e = 1049 <;> by_cases h2 : e = 1045 <;>
    simp [connect, ER_BAD_DB_ERROR, ER_ACCESS_DENIED_ERROR, h1, h2]

/-- C9: the table invariant — at most one row per username (primary-key
uniqueness) and every stored `password_hash` a non-empty string in the range
of `hash_password` — is preserved by `register`, and `setup_table`
(`CREATE TABLE IF NOT EXISTS`) leaves the rows untouched.  (`login` issues
only a `SELECT`; in the embedding its type returns no store at all, so it
cannot alter the table.) -/
theorem C9_store_invariant (u p : String) (salt : Nat) (b : Bool) (st : Store)
    (hwf : Store.wf st) :
    Store.wf (register u p salt b st).2.1 ∧
    (setup_table st).1 = st := by
  refine ⟨?_, rfl⟩
  by_cases hu : strip u = ""
  · simpa [register, hu] using hwf
  by_cases hp : strip p = ""
  · simpa [register, hu, hp] using hwf
  cases hins : insertUser st (strip u) (hash_password b (strip p) salt) with
  | error e => simpa [register, hu, hp, hins] using hwf
  | ok st' =>
    have hst' : st' = ⟨st.rows ++ [(strip u, hash_password b (strip p) salt)]⟩ := by
      unfold insertUser at hins
      by_cases hf : (findRow st (strip u)).isSome
      · rw [if_pos hf] at hins; exact absurd hins (by simp)
      · rw [if_neg hf] at hins
        exact (Except.ok.injEq _ _ ▸ hins.symm)
    have hfree : findRow st (strip u) = none := by
      unfold insertUser at hins
      by_cases hf : (findRow st (strip u)).isSome
      · rw [if_pos hf] at hins; exact absurd hins (by simp)
      · exact Option.not_isSome_iff_eq_none.mp hf
    have hne : ∀ r ∈ st.rows, r.1 ≠ strip u := by
      intro r hr hcontra
      have hfind := find?_rows_eq_none hfree
      rw [List.find?_eq_none] at hfind
      exact hfind r hr (by simp [hcontra])
    obtain ⟨hpw, hall⟩ := hwf
    rw [show (register u p salt b st).2.1 = st' by simp [register, hu, hp, hins]]
    rw [hst']
    constructor
    · rw [List.pairwise_append]
      refine ⟨hpw, by simp, ?_⟩
      intro a ha b' hb'
      simp only [List.mem_singleton] at hb'
      rw [hb']
      exact hne a ha
    · intro r hr
      simp only [List.mem_append, List.mem_singleton] at hr
      rcases hr with hr | hr
      · exact hall r hr
      · rw [hr]
        exact ⟨by rw [hash_password_eq_bcryptHashpw]; exact bcryptHashpw_ne_empty _ _,
          b, strip p, salt, rfl⟩

/-- Witness for C9: registering `"alice"` / `"pw"` on the (trivially
well-formed) empty store. -/
theorem C9_witness :
    Store.wf (register "alice" "pw" 0 false ⟨[]⟩).2.1 ∧
    (setup_table ⟨[]⟩).1 = (⟨[]⟩ : Store) :=
  C9_store_invariant "alice" "pw" 0 false ⟨[]⟩ (by simp [Store.wf])

/-- C10: both `register` and `login` strip leading and trailing whitespace
from the entered username and password before validation and before any
store access, so inputs differing only in surrounding whitespace denote the
same credential: each operation coincides with itself applied to the
pre-stripped inputs; concretely, registering with password `"  p  "` and
then logging in with password `"p"` succeeds, and a whitespace-only username
strips to the empty string (hence is treated as empty). -/
theorem C10_whitespace_stripping (u p : String) (salt : Nat) (b : Bool) (st : Store) :
    (register u p salt b st = register (strip u) (strip p) salt b st ∧
     login u p b st = login (strip u) (strip p) b st) ∧
    (login "u" "p" false (register "u" "  p  " 0 false ⟨[]⟩).2.1).1 =
      LoginResult.success ∧
    strip "   " = "" := by
  refine ⟨⟨?_, ?_⟩, by decide, by decide⟩
  · simp [register, strip_idem]
  · simp [login, strip_idem]

end LoginSystem
